import Mathlib

/-!
Verification development for the hello_xr OpenXR sample program
(src/hello_xr/openxr_program.cpp).  The definitions below are a shallow
embedding of that file: each `def` translates one function or code block of
the source.  External OpenXR runtime calls are modelled by oracle records
whose fields give the runtime's reply to each call; `CHECK`/`CHECK_XRCMD`
macro failures (which throw in the source) are modelled as an `Option
String` fatal-error component carried next to the mutated program state,
so that the state at the moment of the throw stays observable.
Float arithmetic of the source is embedded as exact rational arithmetic.
-/

namespace HelloXr

/-- `XR_NULL_HANDLE` / `XR_NULL_SYSTEM_ID`: OpenXR null handles are zero. -/
def XR_NULL_HANDLE : Nat := 0

def XR_NULL_SYSTEM_ID : Nat := 0

/-- Log severity levels of the Log::Level enum used by the source. -/
inductive LogLevel
  | Verbose
  | Info
  | Warning
  | Error
deriving DecidableEq

/-- `namespace Side`: hand indices `LEFT = 0`, `RIGHT = 1`, `COUNT = 2`.
We embed a hand index as `Fin 2`. -/
def Side.LEFT : Fin 2 := 0

def Side.RIGHT : Fin 2 := 1

/-- A `std::array<α, Side::COUNT>`: one value per hand. -/
structure HandPair (α : Type) where
  left : α
  right : α
deriving DecidableEq

/-- Read the entry of a hand-indexed array. -/
def HandPair.get {α : Type} (p : HandPair α) (i : Fin 2) : α :=
  if i.val = 0 then p.left else p.right

/-- Write the entry of a hand-indexed array. -/
def HandPair.set {α : Type} (p : HandPair α) (i : Fin 2) (v : α) : HandPair α :=
  if i.val = 0 then { p with left := v } else { p with right := v }

/-- ASCII tolower of one character. -/
def charToLower (c : Char) : Char :=
  if c.isUpper then Char.ofNat (c.toNat + 32) else c

/-- Modelled from the spec: `EqualsIgnoreCase` lives in common.h, which is
not part of the sources; the spec says configuration strings are matched
case-insensitively against fixed enumerations.  Embedded as per-character
ASCII tolower comparison of the two strings. -/
def EqualsIgnoreCase (s1 s2 : String) : Bool :=
  s1.data.map charToLower == s2.data.map charToLower

/-- `XrFormFactor` values used by the program. -/
inductive XrFormFactor
  | HeadMountedDisplay
  | HandheldDisplay
deriving DecidableEq

/-- `XrViewConfigurationType` values used by the program. -/
inductive XrViewConfigurationType
  | PrimaryMono
  | PrimaryStereo
deriving DecidableEq

/-- `XrEnvironmentBlendMode` values used by the program. -/
inductive XrEnvironmentBlendMode
  | Opaque
  | Additive
  | AlphaBlend
deriving DecidableEq

/-- `XrSessionState` lifecycle enumeration. -/
inductive XrSessionState
  | Unknown
  | Idle
  | Ready
  | Synchronized
  | Visible
  | Focused
  | Stopping
  | LossPending
  | Exiting
deriving DecidableEq

/-- `GetXrFormFactor`: parse the form-factor configuration string; an
unrecognized string throws `std::invalid_argument`. -/
def GetXrFormFactor (formFactorStr : String) : Except String XrFormFactor :=
  if EqualsIgnoreCase formFactorStr "Hmd" then .ok .HeadMountedDisplay
  else if EqualsIgnoreCase formFactorStr "Handheld" then .ok .HandheldDisplay
  else .error ("Unknown form factor " ++ formFactorStr)

/-- `GetXrViewConfigurationType`: parse the view-configuration string. -/
def GetXrViewConfigurationType (viewConfigurationStr : String) :
    Except String XrViewConfigurationType :=
  if EqualsIgnoreCase viewConfigurationStr "Mono" then .ok .PrimaryMono
  else if EqualsIgnoreCase viewConfigurationStr "Stereo" then .ok .PrimaryStereo
  else .error ("Unknown view configuration " ++ viewConfigurationStr)

/-- `GetXrEnvironmentBlendMode`: parse the blend-mode string. -/
def GetXrEnvironmentBlendMode (environmentBlendModeStr : String) :
    Except String XrEnvironmentBlendMode :=
  if EqualsIgnoreCase environmentBlendModeStr "Opaque" then .ok .Opaque
  else if EqualsIgnoreCase environmentBlendModeStr "Additive" then .ok .Additive
  else if EqualsIgnoreCase environmentBlendModeStr "AlphaBlend" then .ok .AlphaBlend
  else .error ("Unknown environment blend mode " ++ environmentBlendModeStr)

/-- `XrReferenceSpaceType` values used by the program. -/
inductive XrReferenceSpaceType
  | View
  | Local
  | Stage
deriving DecidableEq

/-- Pose payload of a reference-space create info, kept symbolically as the
`Math::Pose` helper the source applies (the helpers fill an `XrPosef` with
sines and cosines of the given angle; the claims only depend on which
helper is applied to which rational arguments, so the float evaluation is
not expanded). -/
inductive PoseSpec
  | identity
  | translation (x y z : ℚ)
  | rotateCCWAboutYAxis (radians : ℚ) (x y z : ℚ)
deriving DecidableEq

/-- `xr::ReferenceSpaceCreateInfo`: default pose is the identity pose. -/
structure ReferenceSpaceCreateInfo where
  poseInReferenceSpace : PoseSpec := .identity
  referenceSpaceType : XrReferenceSpaceType := .View
deriving DecidableEq

/-- `GetXrReferenceSpaceCreateInfo`: parse a reference-space identifier
into a create info; an unrecognized string throws. -/
def GetXrReferenceSpaceCreateInfo (referenceSpaceTypeStr : String) :
    Except String ReferenceSpaceCreateInfo :=
  if EqualsIgnoreCase referenceSpaceTypeStr "View" then
    .ok { referenceSpaceType := .View }
  else if EqualsIgnoreCase referenceSpaceTypeStr "ViewFront" then
    .ok { poseInReferenceSpace := .translation 0 0 (-2), referenceSpaceType := .View }
  else if EqualsIgnoreCase referenceSpaceTypeStr "Local" then
    .ok { referenceSpaceType := .Local }
  else if EqualsIgnoreCase referenceSpaceTypeStr "Stage" then
    .ok { referenceSpaceType := .Stage }
  else if EqualsIgnoreCase referenceSpaceTypeStr "StageLeft" then
    .ok { poseInReferenceSpace := .rotateCCWAboutYAxis 0 (-2) 0 (-2),
          referenceSpaceType := .Stage }
  else if EqualsIgnoreCase referenceSpaceTypeStr "StageRight" then
    .ok { poseInReferenceSpace := .rotateCCWAboutYAxis 0 2 0 (-2),
          referenceSpaceType := .Stage }
  else if EqualsIgnoreCase referenceSpaceTypeStr "StageLeftRotated" then
    .ok { poseInReferenceSpace := .rotateCCWAboutYAxis (3.14 / 3) (-2) 0.5 (-2),
          referenceSpaceType := .Stage }
  else if EqualsIgnoreCase referenceSpaceTypeStr "StageRightRotated" then
    .ok { poseInReferenceSpace := .rotateCCWAboutYAxis (-3.14 / 3) 2 0.5 (-2),
          referenceSpaceType := .Stage }
  else
    .error ("Unknown reference space type " ++ referenceSpaceTypeStr)

/-- One per-view `Swapchain` record of the source (handle plus extent). -/
structure Swapchain where
  handle : Nat
  width : Int
  height : Int
deriving DecidableEq

/-- `OpenXrProgram::InputState`.  Handles are `Nat` (0 = null).
`handScale` is value-initialized to 1.0 for both hands in the source;
`handActive` has no initializer in the source (it is overwritten at the
start of every `PollActions` call), so its initial value here is arbitrary. -/
structure InputState where
  actionSet : Nat := XR_NULL_HANDLE
  grabAction : Nat := XR_NULL_HANDLE
  poseAction : Nat := XR_NULL_HANDLE
  vibrateAction : Nat := XR_NULL_HANDLE
  quitAction : Nat := XR_NULL_HANDLE
  handSubactionPath : HandPair Nat := ⟨0, 0⟩
  handSpace : HandPair Nat := ⟨XR_NULL_HANDLE, XR_NULL_HANDLE⟩
  handScale : HandPair ℚ := ⟨1, 1⟩
  handActive : HandPair Bool := ⟨false, false⟩
deriving DecidableEq

/-- The member state of `OpenXrProgram` relevant to the claims.
`m_configViews` and `m_views` are vectors of runtime descriptors whose
elements the claims never inspect; only their sizes are kept. -/
structure OpenXrProgramState where
  m_instance : Nat := XR_NULL_HANDLE
  m_session : Nat := XR_NULL_HANDLE
  m_appSpace : Nat := XR_NULL_HANDLE
  m_formFactor : XrFormFactor := .HeadMountedDisplay
  m_viewConfigType : XrViewConfigurationType := .PrimaryStereo
  m_environmentBlendMode : XrEnvironmentBlendMode := .Opaque
  m_systemId : Nat := XR_NULL_SYSTEM_ID
  m_configViewCount : Nat := 0
  m_swapchains : List Swapchain := []
  m_viewCount : Nat := 0
  m_visualizedSpaces : List Nat := []
  m_sessionState : XrSessionState := .Unknown
  m_sessionRunning : Bool := false
  m_input : InputState := {}
deriving DecidableEq

/-! ## Session-state handler (`HandleSessionStateChangedEvent`) -/

/-- `XrEventDataSessionStateChanged` payload. -/
structure XrEventDataSessionStateChanged where
  session : Nat
  state : XrSessionState
  time : Int
deriving DecidableEq

/-- Runtime session calls the handler can issue. -/
inductive SessionCall
  | beginSession (primaryViewConfigurationType : XrViewConfigurationType)
  | endSession
deriving DecidableEq

/-- Result of `HandleSessionStateChangedEvent`: the new program state, the
out-parameters `exitRenderLoop` / `requestRestart`, the session begin/end
calls issued, the log lines written, and a fatal error for a failed
`CHECK` (which throws in the source). -/
structure HandleResult where
  state : OpenXrProgramState
  exitRenderLoop : Bool
  requestRestart : Bool
  calls : List SessionCall
  logs : List (LogLevel × String)
  fatal : Option String
deriving DecidableEq

/-- `OpenXrProgram::HandleSessionStateChangedEvent`.  Note the source
assigns `m_sessionState = stateChangedEvent.state` before the
unknown-session guard, so even a discarded event updates the stored
session state.  Log message payloads are kept as fixed strings (the
source formats handles and times into them). -/
def HandleSessionStateChangedEvent (st : OpenXrProgramState)
    (stateChangedEvent : XrEventDataSessionStateChanged)
    (exitRenderLoop requestRestart : Bool) : HandleResult :=
  let st := { st with m_sessionState := stateChangedEvent.state }
  let logs := [(LogLevel.Info, "XrEventDataSessionStateChanged")]
  if stateChangedEvent.session ≠ XR_NULL_HANDLE ∧
      stateChangedEvent.session ≠ st.m_session then
    { state := st, exitRenderLoop := exitRenderLoop, requestRestart := requestRestart,
      calls := [],
      logs := logs ++ [(LogLevel.Error, "XrEventDataSessionStateChanged for unknown session")],
      fatal := none }
  else
    match st.m_sessionState with
    | .Ready =>
      if st.m_session = XR_NULL_HANDLE then
        { state := st, exitRenderLoop := exitRenderLoop, requestRestart := requestRestart,
          calls := [], logs := logs, fatal := some "CHECK failed: m_session != XR_NULL_HANDLE" }
      else
        { state := { st with m_sessionRunning := true },
          exitRenderLoop := exitRenderLoop, requestRestart := requestRestart,
          calls := [.beginSession st.m_viewConfigType], logs := logs, fatal := none }
    | .Stopping =>
      if st.m_session = XR_NULL_HANDLE then
        { state := st, exitRenderLoop := exitRenderLoop, requestRestart := requestRestart,
          calls := [], logs := logs, fatal := some "CHECK failed: m_session != XR_NULL_HANDLE" }
      else
        { state := { st with m_sessionRunning := false },
          exitRenderLoop := exitRenderLoop, requestRestart := requestRestart,
          calls := [.endSession], logs := logs, fatal := none }
    | .Exiting =>
      { state := st, exitRenderLoop := true, requestRestart := false,
        calls := [], logs := logs, fatal := none }
    | .LossPending =>
      { state := st, exitRenderLoop := true, requestRestart := true,
        calls := [], logs := logs, fatal := none }
    | _ =>
      { state := st, exitRenderLoop := exitRenderLoop, requestRestart := requestRestart,
        calls := [], logs := logs, fatal := none }

/-! ## `PollActions` -/

/-- `XrActionStateFloat`: the grab action's per-sync state. -/
structure XrActionStateFloat where
  isActive : Bool
  currentState : ℚ
deriving DecidableEq

/-- `XrActionStatePose`: the pose action's per-sync activity flag. -/
structure XrActionStatePose where
  isActive : Bool
deriving DecidableEq

/-- `XrActionStateBoolean`: the quit action's per-sync state. -/
structure XrActionStateBoolean where
  isActive : Bool
  changedSinceLastSync : Bool
  currentState : Bool
deriving DecidableEq

/-- The runtime's replies to the `xrGetActionState*` calls of one
`PollActions` invocation (after its `xrSyncActions`). -/
structure SyncResult where
  grabValue : HandPair XrActionStateFloat
  poseState : HandPair XrActionStatePose
  quitValue : XrActionStateBoolean
deriving DecidableEq

/-- Duration field of `XrHapticVibration`; the source always uses
`XR_MIN_HAPTIC_DURATION`. -/
inductive HapticDuration
  | minHaptic
  | nanoseconds (n : Int)
deriving DecidableEq

/-- `XrHapticVibration` payload (frequency 0 is `XR_FREQUENCY_UNSPECIFIED`). -/
structure XrHapticVibration where
  duration : HapticDuration
  frequency : ℚ
  amplitude : ℚ
deriving DecidableEq

/-- Result of one `PollActions` call: the new program state, the haptic
pulse issued on each hand's vibrate output (at most one per hand per
call), and whether `xrRequestExitSession` was called. -/
structure PollActionsResult where
  state : OpenXrProgramState
  haptics : HandPair (Option XrHapticVibration)
  exitRequested : Bool
deriving DecidableEq

/-- Body of the per-hand loop in `PollActions` (source lines 775-802):
read the grab action state; if active, update the hand scale and possibly
fire a haptic pulse; then read the pose action state into `handActive`. -/
def pollHand (st : OpenXrProgramState) (sync : SyncResult) (hand : Fin 2) :
    OpenXrProgramState × Option XrHapticVibration :=
  let grabValue := sync.grabValue.get hand
  let result :=
    if grabValue.isActive then
      let st := { st with m_input := { st.m_input with
        handScale := st.m_input.handScale.set hand (1 - 1/2 * grabValue.currentState) } }
      if grabValue.currentState > 9/10 then
        (st, some { duration := .minHaptic, frequency := 0, amplitude := 1/2 })
      else
        (st, none)
    else
      (st, none)
  let st := result.1
  let poseState := sync.poseState.get hand
  ({ st with m_input := { st.m_input with
      handActive := st.m_input.handActive.set hand poseState.isActive } },
   result.2)

/-- `OpenXrProgram::PollActions`.  The `xrSyncActions`,
`xrGetActionState*`, `xrApplyHapticFeedback` and `xrRequestExitSession`
calls are wrapped in `CHECK_XRCMD` in the source; they are modelled on
their success path (no claim concerns their failure). -/
def PollActions (st : OpenXrProgramState) (sync : SyncResult) : PollActionsResult :=
  let st := { st with m_input := { st.m_input with handActive := ⟨false, false⟩ } }
  let leftResult := pollHand st sync Side.LEFT
  let rightResult := pollHand leftResult.1 sync Side.RIGHT
  let quitValue := sync.quitValue
  { state := rightResult.1,
    haptics := ⟨leftResult.2, rightResult.2⟩,
    exitRequested :=
      quitValue.isActive && quitValue.changedSinceLastSync && quitValue.currentState }

/-! ## Startup: `InitializeSystem`, `InitializeSession`,
`CreateVisualizedSpaces` -/

/-- `Options` fields consumed by the program (defined in options.h, read
here through `m_options`). -/
structure Options where
  FormFactor : String
  ViewConfiguration : String
  EnvironmentBlendMode : String
  AppSpace : String
deriving DecidableEq

/-- The runtime's replies to the startup-time OpenXR calls.  A handle
field models the value a throwing-on-failure wrapper call returns on its
success path; `createReferenceSpace` returns the `XrResult`-style outcome
of `xrCreateReferenceSpace` for a given create info (negative = failure
code).  `logChecksPass` abstracts the read-only enumeration `CHECK`s in
`LogViewConfigurations` / `LogEnvironmentBlendMode` (their outcome depends
only on what the runtime enumerates). -/
structure RuntimeOracle where
  getSystemId : Nat
  logChecksPass : Bool
  createSessionHandle : Nat
  actionSetHandle : Nat
  grabActionHandle : Nat
  poseActionHandle : Nat
  vibrateActionHandle : Nat
  quitActionHandle : Nat
  handPathLeft : Nat
  handPathRight : Nat
  handSpaceLeft : Nat
  handSpaceRight : Nat
  createReferenceSpace : ReferenceSpaceCreateInfo → Except Int Nat

deriving instance DecidableEq for Except

/-- `Except` success test (kept local to this development). -/
def exOk {ε α : Type} : Except ε α → Bool
  | .ok _ => true
  | .error _ => false

/-- `OpenXrProgram::InitializeSystem`: parse the three configuration
strings (each parse throws on an unrecognized string, propagating out of
the call), obtain the system id, run the logging enumerations, and hand
the device to the graphics plugin (no program-state effect). -/
def InitializeSystem (opts : Options) (o : RuntimeOracle) (st : OpenXrProgramState) :
    OpenXrProgramState × Option String :=
  if st.m_instance = XR_NULL_HANDLE then
    (st, some "CHECK failed: m_instance != XR_NULL_HANDLE")
  else if st.m_systemId ≠ XR_NULL_SYSTEM_ID then
    (st, some "CHECK failed: m_systemId == XR_NULL_SYSTEM_ID")
  else
    match GetXrFormFactor opts.FormFactor with
    | .error e => (st, some e)
    | .ok ff =>
      let st := { st with m_formFactor := ff }
      match GetXrViewConfigurationType opts.ViewConfiguration with
      | .error e => (st, some e)
      | .ok vc =>
        let st := { st with m_viewConfigType := vc }
        match GetXrEnvironmentBlendMode opts.EnvironmentBlendMode with
        | .error e => (st, some e)
        | .ok bm =>
          let st := { st with m_environmentBlendMode := bm }
          let st := { st with m_systemId := o.getSystemId }
          if st.m_systemId = XR_NULL_SYSTEM_ID then
            (st, some "CHECK failed: m_systemId != XR_NULL_SYSTEM_ID")
          else if o.logChecksPass then
            (st, none)
          else
            (st, some "CHECK failed in LogViewConfigurations")

/-- `OpenXrProgram::InitializeActions`: create the action set, the four
actions, the two hand subaction paths and hand action spaces, and attach
the action set.  All these runtime calls throw on failure; they are
modelled on their success path (the suggested-bindings call has no
program-state effect). -/
def InitializeActions (o : RuntimeOracle) (st : OpenXrProgramState) :
    OpenXrProgramState :=
  { st with m_input := { st.m_input with
      actionSet := o.actionSetHandle,
      handSubactionPath := ⟨o.handPathLeft, o.handPathRight⟩,
      grabAction := o.grabActionHandle,
      poseAction := o.poseActionHandle,
      vibrateAction := o.vibrateActionHandle,
      quitAction := o.quitActionHandle,
      handSpace := ⟨o.handSpaceLeft, o.handSpaceRight⟩ } }

/-- The fixed identifiers of `CreateVisualizedSpaces`. -/
def visualizedSpaceNames : List String :=
  ["ViewFront", "Local", "Stage", "StageLeft", "StageRight", "StageLeftRotated",
   "StageRightRotated"]

/-- Trace of the `CreateVisualizedSpaces` loop: every
`xrCreateReferenceSpace` call attempted with its outcome, the space
handles retained, and the warning lines logged for failures. -/
structure SpaceCreationTrace where
  attempts : List (String × Except Int Nat)
  retained : List Nat
  logs : List (LogLevel × String)
deriving DecidableEq

/-- The loop body of `CreateVisualizedSpaces`: for each identifier, build
the create info (`GetXrReferenceSpaceCreateInfo` throws out of the whole
loop on an unrecognized identifier) and try to create the space; retain it
on success, log a warning and continue on failure. -/
def createVisualizedSpacesLoop (o : RuntimeOracle) :
    List String → Except String SpaceCreationTrace
  | [] => .ok ⟨[], [], []⟩
  | name :: rest =>
    match GetXrReferenceSpaceCreateInfo name with
    | .error e => .error e
    | .ok info =>
      let res := o.createReferenceSpace info
      match createVisualizedSpacesLoop o rest with
      | .error e => .error e
      | .ok t =>
        match res with
        | .ok space =>
          .ok ⟨(name, res) :: t.attempts, space :: t.retained, t.logs⟩
        | .error _ =>
          .ok ⟨(name, res) :: t.attempts, t.retained,
               (LogLevel.Warning, "Failed to create reference space " ++ name) :: t.logs⟩

/-- `OpenXrProgram::CreateVisualizedSpaces`. -/
def CreateVisualizedSpaces (o : RuntimeOracle) (st : OpenXrProgramState) :
    OpenXrProgramState × SpaceCreationTrace × Option String :=
  if st.m_session = XR_NULL_HANDLE then
    (st, ⟨[], [], []⟩, some "CHECK failed: m_session != XR_NULL_HANDLE")
  else
    match createVisualizedSpacesLoop o visualizedSpaceNames with
    | .error e => (st, ⟨[], [], []⟩, some e)
    | .ok t =>
      ({ st with m_visualizedSpaces := st.m_visualizedSpaces ++ t.retained }, t, none)

/-- `OpenXrProgram::InitializeSession`: create the session (modelled on
the success path of the throwing wrapper), log reference spaces
(read-only), run `InitializeActions` and `CreateVisualizedSpaces`, then
create the single app space from the configured identifier — whose parse
throws on an unrecognized string only after the preceding steps have
already mutated the program state. -/
def InitializeSession (opts : Options) (o : RuntimeOracle) (st : OpenXrProgramState) :
    OpenXrProgramState × Option String :=
  if st.m_instance = XR_NULL_HANDLE then
    (st, some "CHECK failed: m_instance != XR_NULL_HANDLE")
  else if st.m_session ≠ XR_NULL_HANDLE then
    (st, some "CHECK failed: m_session == XR_NULL_HANDLE")
  else
    let st := { st with m_session := o.createSessionHandle }
    let st := InitializeActions o st
    match CreateVisualizedSpaces o st with
    | (st, _, some e) => (st, some e)
    | (st, _, none) =>
      match GetXrReferenceSpaceCreateInfo opts.AppSpace with
      | .error e => (st, some e)
      | .ok info =>
        match o.createReferenceSpace info with
        | .error _ => (st, some "xrCreateReferenceSpace failed")
        | .ok h => ({ st with m_appSpace := h }, none)

/-! ## Frame rendering: `RenderFrame` and `RenderLayer` -/

/-- `XrVector3f` over exact rationals. -/
structure XrVector3f where
  x : ℚ
  y : ℚ
  z : ℚ
deriving DecidableEq

/-- `XrQuaternionf` over exact rationals. -/
structure XrQuaternionf where
  x : ℚ
  y : ℚ
  z : ℚ
  w : ℚ
deriving DecidableEq

/-- `XrPosef`. -/
structure XrPosef where
  orientation : XrQuaternionf
  position : XrVector3f
deriving DecidableEq

/-- A drawable `Cube`: pose plus scale, rebuilt every frame. -/
structure Cube where
  pose : XrPosef
  scale : XrVector3f
deriving DecidableEq

/-- Location reply of `xrLocateSpace`: the two validity bits of
`locationFlags` plus the pose. -/
structure SpaceLocation where
  positionValid : Bool
  orientationValid : Bool
  pose : XrPosef
deriving DecidableEq

/-- `XrFrameState` as returned by `xrWaitFrame`. -/
structure FrameState where
  predictedDisplayTime : Int
  shouldRender : Bool
deriving DecidableEq

/-- The runtime's replies to the per-frame calls of one `RenderFrame`
invocation.  `XrResult`-style codes are `Int` (negative = failure,
zero = `XR_SUCCESS`, positive = qualified success).  `locateSpace` maps a
space handle and time to the result code and location; `acquireImage` /
`waitImage` give the per-view-index outcome of the swapchain calls. -/
structure RenderOracle where
  waitFrameResult : Int
  frameState : FrameState
  beginFrameResult : Int
  locateViewsResult : Int
  positionValid : Bool
  orientationValid : Bool
  viewCountOutput : Nat
  locateSpace : Nat → Int → Int × SpaceLocation
  acquireImage : Nat → Except Int Nat
  waitImage : Nat → Except Int Unit
  endFrameResult : Int

/-- Trace of the per-view swapchain loop: the view indices on which
`xrAcquireSwapchainImage`, `RenderView`, and `xrReleaseSwapchainImage`
were invoked, plus a fatal error if a `CHECK_XRCMD` threw. -/
structure ViewLoopTrace where
  acquireCalls : List Nat
  renderCalls : List Nat
  releaseCalls : List Nat
  fatal : Option String
deriving DecidableEq

/-- The per-view loop of `RenderLayer` (source lines 907-932): for each
view index acquire the swapchain image, wait for it, render into it via
the graphics plugin, and release it.  A failed acquire or wait throws
(`CHECK_XRCMD`), abandoning the rest of the loop; `RenderView` itself is a
synchronous plugin call that returns normally even if drawing fails
logically, so the release that follows it is always reached. -/
def RenderViewLoop (o : RenderOracle) : List Nat → ViewLoopTrace
  | [] => ⟨[], [], [], none⟩
  | i :: rest =>
    match o.acquireImage i with
    | .error _ => ⟨[i], [], [], some "xrAcquireSwapchainImage failed"⟩
    | .ok _ =>
      match o.waitImage i with
      | .error _ => ⟨[i], [], [], some "xrWaitSwapchainImage failed"⟩
      | .ok _ =>
        let t := RenderViewLoop o rest
        ⟨i :: t.acquireCalls, i :: t.renderCalls, i :: t.releaseCalls, t.fatal⟩

/-- Cube collection over the visualized spaces (source lines 869-881): a
negative `xrLocateSpace` code throws (`CHECK_XRRESULT`); an unqualified
success with both validity bits set emits a 0.25-unit cube; anything else
is logged and skipped. -/
def collectSpaceCubes (o : RenderOracle) (time : Int) :
    List Nat → Except String (List Cube)
  | [] => .ok []
  | space :: rest =>
    let reply := o.locateSpace space time
    if reply.1 < 0 then .error "xrLocateSpace failed"
    else
      match collectSpaceCubes o time rest with
      | .error e => .error e
      | .ok cubes =>
        if reply.1 = 0 ∧ reply.2.positionValid ∧ reply.2.orientationValid then
          .ok ({ pose := reply.2.pose, scale := ⟨1/4, 1/4, 1/4⟩ } :: cubes)
        else
          .ok cubes

/-- Hand-cube collection for one hand (source lines 885-904): locate the
hand action space; a negative code throws; an unqualified success with
both validity bits set emits a 0.1-unit cube scaled by that hand's
grab-derived scale; otherwise a log line is written only when the hand is
active (log content not modelled). -/
def handCube (o : RenderOracle) (st : OpenXrProgramState) (time : Int)
    (hand : Fin 2) : Except String (List Cube) :=
  let reply := o.locateSpace (st.m_input.handSpace.get hand) time
  if reply.1 < 0 then .error "xrLocateSpace failed"
  else if reply.1 = 0 ∧ reply.2.positionValid ∧ reply.2.orientationValid then
    let scale := 1/10 * st.m_input.handScale.get hand
    .ok [{ pose := reply.2.pose, scale := ⟨scale, scale, scale⟩ }]
  else
    .ok []

/-- Result of `RenderLayer`: its boolean return value, the number of
projection views assembled, the cube list handed to the plugin, the
per-view loop trace, and a fatal error if a `CHECK` threw. -/
structure RenderLayerResult where
  returnValue : Bool
  layerViewCount : Nat
  cubes : List Cube
  trace : ViewLoopTrace
  fatal : Option String
deriving DecidableEq

/-- `OpenXrProgram::RenderLayer`: locate the views (negative code throws);
if the position-valid or orientation-valid bit is unset, return false at
once (no cubes, no swapchain work); check the view-count invariants; build
the cube list; run the per-view swapchain loop; fill the layer. -/
def RenderLayer (st : OpenXrProgramState) (o : RenderOracle)
    (predictedDisplayTime : Int) : RenderLayerResult :=
  let emptyTrace : ViewLoopTrace := ⟨[], [], [], none⟩
  if o.locateViewsResult < 0 then
    ⟨false, 0, [], emptyTrace, some "xrLocateViews failed"⟩
  else if o.positionValid = false ∨ o.orientationValid = false then
    ⟨false, 0, [], emptyTrace, none⟩
  else if ¬(o.viewCountOutput = st.m_viewCount ∧
            o.viewCountOutput = st.m_configViewCount ∧
            o.viewCountOutput = st.m_swapchains.length) then
    ⟨false, 0, [], emptyTrace, some "CHECK failed: view count mismatch"⟩
  else
    match collectSpaceCubes o predictedDisplayTime st.m_visualizedSpaces with
    | .error e => ⟨false, 0, [], emptyTrace, some e⟩
    | .ok spaceCubes =>
      match handCube o st predictedDisplayTime Side.LEFT with
      | .error e => ⟨false, 0, [], emptyTrace, some e⟩
      | .ok leftCubes =>
        match handCube o st predictedDisplayTime Side.RIGHT with
        | .error e => ⟨false, 0, [], emptyTrace, some e⟩
        | .ok rightCubes =>
          let cubes := spaceCubes ++ leftCubes ++ rightCubes
          let t := RenderViewLoop o (List.range o.viewCountOutput)
          match t.fatal with
          | some e => ⟨false, o.viewCountOutput, cubes, t, some e⟩
          | none => ⟨true, o.viewCountOutput, cubes, t, none⟩

/-- Result of `RenderFrame`: the swapchain-loop trace, the `xrEndFrame`
call with its display time, blend mode and layer count (`none` when the
frame aborted before reaching it), and a fatal error if anything threw. -/
structure FrameResult where
  trace : ViewLoopTrace
  endFrame : Option (Int × XrEnvironmentBlendMode × Nat)
  fatal : Option String
deriving DecidableEq

/-- `OpenXrProgram::RenderFrame`: wait-frame, begin-frame, render the
layer when `shouldRender` is set (a layer is submitted only when
`RenderLayer` returns true), then end-frame with the original predicted
display time and the configured blend mode. -/
def RenderFrame (st : OpenXrProgramState) (o : RenderOracle) : FrameResult :=
  let emptyTrace : ViewLoopTrace := ⟨[], [], [], none⟩
  if st.m_session = XR_NULL_HANDLE then
    ⟨emptyTrace, none, some "CHECK failed: m_session != XR_NULL_HANDLE"⟩
  else if o.waitFrameResult < 0 then
    ⟨emptyTrace, none, some "xrWaitFrame failed"⟩
  else if o.beginFrameResult < 0 then
    ⟨emptyTrace, none, some "xrBeginFrame failed"⟩
  else
    let fs := o.frameState
    if fs.shouldRender then
      let r := RenderLayer st o fs.predictedDisplayTime
      match r.fatal with
      | some e => ⟨r.trace, none, some e⟩
      | none =>
        let layerCount := if r.returnValue then 1 else 0
        ⟨r.trace, some (fs.predictedDisplayTime, st.m_environmentBlendMode, layerCount),
         if o.endFrameResult < 0 then some "xrEndFrame failed" else none⟩
    else
      ⟨emptyTrace, some (fs.predictedDisplayTime, st.m_environmentBlendMode, 0),
       if o.endFrameResult < 0 then some "xrEndFrame failed" else none⟩

/-! ## Derived definitions used by the statements -/

/-- The grab-to-scale mapping applied at source line 784. -/
def handScaleFormula (g : ℚ) : ℚ := 1 - 1/2 * g

/-- How many `PollActions` calls of a sync sequence request session exit,
threading the program state through the calls. -/
def countExitRequests (st : OpenXrProgramState) : List SyncResult → Nat
  | [] => 0
  | sync :: rest =>
    let r := PollActions st sync
    (if r.exitRequested then 1 else 0) + countExitRequests r.state rest

/-- The OpenXR contract for `changedSinceLastSync`: the flag of each sync
is set exactly when the boolean's current state differs from the previous
sync's current state (`prev` is the state before the first sync). -/
def changedConsistent (prev : Bool) : List SyncResult → Bool
  | [] => true
  | sync :: rest =>
    (sync.quitValue.changedSinceLastSync == (sync.quitValue.currentState != prev)) &&
      changedConsistent sync.quitValue.currentState rest

/-- Number of rising edges (false → true) of the quit button's current
state across a sync sequence. -/
def risingEdges (prev : Bool) : List SyncResult → Nat
  | [] => 0
  | sync :: rest =>
    (if sync.quitValue.currentState && !prev then 1 else 0) +
      risingEdges sync.quitValue.currentState rest

/-- Spec-side enumeration: recognized form-factor strings. -/
def recognizedFormFactor (s : String) : Bool :=
  EqualsIgnoreCase s "Hmd" || EqualsIgnoreCase s "Handheld"

/-- Spec-side enumeration: recognized view-configuration strings. -/
def recognizedViewConfiguration (s : String) : Bool :=
  EqualsIgnoreCase s "Mono" || EqualsIgnoreCase s "Stereo"

/-- Spec-side enumeration: recognized blend-mode strings. -/
def recognizedEnvironmentBlendMode (s : String) : Bool :=
  EqualsIgnoreCase s "Opaque" || EqualsIgnoreCase s "Additive" ||
    EqualsIgnoreCase s "AlphaBlend"

/-- Spec-side enumeration: the 8 recognized reference-space identifiers. -/
def recognizedReferenceSpace (s : String) : Bool :=
  ["View", "ViewFront", "Local", "Stage", "StageLeft", "StageRight",
   "StageLeftRotated", "StageRightRotated"].any (EqualsIgnoreCase s)

/-! ## Concrete demonstration inputs -/

/-- A program state as it stands after successful startup. -/
def demoProgramState : OpenXrProgramState :=
  { m_instance := 1, m_session := 2, m_appSpace := 3,
    m_systemId := 5,
    m_configViewCount := 2, m_viewCount := 2,
    m_swapchains := [⟨10, 64, 64⟩, ⟨11, 64, 64⟩],
    m_visualizedSpaces := [21, 22],
    m_sessionState := .Focused,
    m_sessionRunning := true,
    m_input := { actionSet := 41, grabAction := 42, poseAction := 43,
                 vibrateAction := 44, quitAction := 45,
                 handSubactionPath := ⟨51, 52⟩, handSpace := ⟨31, 32⟩ } }

/-- A sync where the quit button was just pressed and the left hand is
fully squeezed. -/
def demoSyncPress : SyncResult :=
  { grabValue := ⟨⟨true, 1⟩, ⟨false, 0⟩⟩,
    poseState := ⟨⟨true⟩, ⟨false⟩⟩,
    quitValue := ⟨true, true, true⟩ }

/-- The following sync with the quit button still held (unchanged). -/
def demoSyncHold : SyncResult :=
  { grabValue := ⟨⟨true, 1⟩, ⟨false, 0⟩⟩,
    poseState := ⟨⟨true⟩, ⟨false⟩⟩,
    quitValue := ⟨true, false, true⟩ }

/-- A startup runtime oracle on which creating the `Local` reference space
fails and every other runtime call succeeds. -/
def demoRuntimeOracle : RuntimeOracle :=
  { getSystemId := 5, logChecksPass := true, createSessionHandle := 2,
    actionSetHandle := 41, grabActionHandle := 42, poseActionHandle := 43,
    vibrateActionHandle := 44, quitActionHandle := 45,
    handPathLeft := 51, handPathRight := 52,
    handSpaceLeft := 31, handSpaceRight := 32,
    createReferenceSpace := fun info =>
      if info.referenceSpaceType = .Local ∧ info.poseInReferenceSpace = .identity then
        .error (-12)
      else .ok 60 }

/-- A program state right after instance creation. -/
def demoFreshState : OpenXrProgramState := { m_instance := 1 }

/-- Startup options whose app-space identifier is not recognized. -/
def demoBadAppSpaceOptions : Options :=
  { FormFactor := "Hmd", ViewConfiguration := "Stereo",
    EnvironmentBlendMode := "Opaque", AppSpace := "Bogus" }

/-- An identity pose. -/
def demoPose : XrPosef := ⟨⟨0, 0, 0, 1⟩, ⟨0, 0, 0⟩⟩

/-- A frame oracle reporting the orientation-valid flag unset. -/
def demoRenderOracleInvalid : RenderOracle :=
  { waitFrameResult := 0, frameState := ⟨1000, true⟩, beginFrameResult := 0,
    locateViewsResult := 0, positionValid := true, orientationValid := false,
    viewCountOutput := 2,
    locateSpace := fun _ _ => (0, ⟨true, true, demoPose⟩),
    acquireImage := fun _ => .ok 0, waitImage := fun _ => .ok (),
    endFrameResult := 0 }

/-- A frame oracle on which everything succeeds except that the second
view's swapchain-image acquire fails. -/
def demoRenderOracleAcquireFail : RenderOracle :=
  { waitFrameResult := 0, frameState := ⟨1000, true⟩, beginFrameResult := 0,
    locateViewsResult := 0, positionValid := true, orientationValid := true,
    viewCountOutput := 2,
    locateSpace := fun space _ => if space = 21 then (1, ⟨false, false, demoPose⟩)
                                  else (0, ⟨true, true, demoPose⟩),
    acquireImage := fun i => if i = 1 then .error (-1) else .ok 0,
    waitImage := fun _ => .ok (),
    endFrameResult := 0 }

/-! ## Helper lemmas -/

theorem HandPair.get_set_same {α : Type} (p : HandPair α) (i : Fin 2) (v : α) :
    (p.set i v).get i = v := by
  fin_cases i <;> simp [HandPair.get, HandPair.set]

theorem HandPair.get_set_other {α : Type} (p : HandPair α) (i j : Fin 2) (v : α)
    (h : i ≠ j) : (p.set i v).get j = p.get j := by
  fin_cases i <;> fin_cases j <;> simp_all [HandPair.get, HandPair.set]

/-- The hand scale written by `pollHand`. -/
theorem pollHand_handScale (st : OpenXrProgramState) (sync : SyncResult) (hand : Fin 2) :
    (pollHand st sync hand).1.m_input.handScale =
      if (sync.grabValue.get hand).isActive then
        st.m_input.handScale.set hand (1 - 1/2 * (sync.grabValue.get hand).currentState)
      else st.m_input.handScale := by
  unfold pollHand
  by_cases h : (sync.grabValue.get hand).isActive
  · by_cases h9 : (sync.grabValue.get hand).currentState > 9/10 <;> simp [h, h9]
  · simp [h]

/-- The hand-active flag written by `pollHand`. -/
theorem pollHand_handActive (st : OpenXrProgramState) (sync : SyncResult) (hand : Fin 2) :
    (pollHand st sync hand).1.m_input.handActive =
      st.m_input.handActive.set hand (sync.poseState.get hand).isActive := by
  unfold pollHand
  by_cases h : (sync.grabValue.get hand).isActive
  · by_cases h9 : (sync.grabValue.get hand).currentState > 9/10 <;> simp [h, h9]
  · simp [h]

/-- The haptic pulse emitted by `pollHand`. -/
theorem pollHand_haptic (st : OpenXrProgramState) (sync : SyncResult) (hand : Fin 2) :
    (pollHand st sync hand).2 =
      if (sync.grabValue.get hand).isActive = true ∧
          (sync.grabValue.get hand).currentState > 9/10 then
        some { duration := .minHaptic, frequency := 0, amplitude := 1/2 }
      else none := by
  unfold pollHand
  by_cases h : (sync.grabValue.get hand).isActive
  · by_cases h9 : (sync.grabValue.get hand).currentState > 9/10 <;> simp [h, h9]
  · simp [h]

/-- The hand scale after a full `PollActions` call. -/
theorem pollActions_handScale_get (st : OpenXrProgramState) (sync : SyncResult)
    (hand : Fin 2) :
    (PollActions st sync).state.m_input.handScale.get hand =
      if (sync.grabValue.get hand).isActive then
        1 - 1/2 * (sync.grabValue.get hand).currentState
      else st.m_input.handScale.get hand := by
  unfold PollActions
  simp only [pollHand_handScale]
  fin_cases hand <;>
    by_cases aL : (sync.grabValue.get Side.LEFT).isActive <;>
    by_cases aR : (sync.grabValue.get Side.RIGHT).isActive <;>
    simp_all [Side.LEFT, Side.RIGHT, HandPair.get, HandPair.set]

/-- The hand-active flags after a full `PollActions` call. -/
theorem pollActions_handActive_get (st : OpenXrProgramState) (sync : SyncResult)
    (hand : Fin 2) :
    (PollActions st sync).state.m_input.handActive.get hand =
      (sync.poseState.get hand).isActive := by
  unfold PollActions
  simp only [pollHand_handActive]
  fin_cases hand <;> simp [Side.LEFT, Side.RIGHT, HandPair.get, HandPair.set]

/-! ## Claim theorems: `PollActions` -/

/-- **C4**: In every `PollActions` call, session exit is requested if and
only if the quit boolean action state is simultaneously active,
changed-since-last-sync, and currently true; and across a sync sequence
whose changed-flags are consistent with the button history, exit is
requested at most once per rising edge of the button. -/
theorem pollActions_quit_edge_trigger :
    (∀ (st : OpenXrProgramState) (sync : SyncResult),
      (PollActions st sync).exitRequested =
        (sync.quitValue.isActive && sync.quitValue.changedSinceLastSync &&
          sync.quitValue.currentState))
    ∧ ∀ (prev : Bool) (st : OpenXrProgramState) (syncs : List SyncResult),
        changedConsistent prev syncs = true →
        countExitRequests st syncs ≤ risingEdges prev syncs := by
  constructor
  · intro st sync; rfl
  · intro prev st syncs
    induction syncs generalizing prev st with
    | nil => intro _; simp [countExitRequests, risingEdges]
    | cons sync rest ih =>
      intro h
      rw [changedConsistent, Bool.and_eq_true, beq_iff_eq] at h
      obtain ⟨h1, h2⟩ := h
      rw [countExitRequests, risingEdges]
      refine Nat.add_le_add ?_ (ih _ _ h2)
      have hreq : (PollActions st sync).exitRequested =
          (sync.quitValue.isActive && sync.quitValue.changedSinceLastSync &&
            sync.quitValue.currentState) := rfl
      rw [hreq, h1]
      rcases sync.quitValue with ⟨a, ch, cur⟩
      cases a <;> cases cur <;> cases prev <;> simp

/-- Witness for **C4**: a press followed by an unchanged hold requests
exit exactly once across the two syncs. -/
theorem pollActions_quit_edge_trigger_witness :
    countExitRequests demoProgramState [demoSyncPress, demoSyncHold] ≤
      risingEdges false [demoSyncPress, demoSyncHold] :=
  pollActions_quit_edge_trigger.2 false demoProgramState [demoSyncPress, demoSyncHold]
    (by decide)

/-- **C5**: For a hand whose grab action is active with grab value
`g ∈ [0,1]`, `PollActions` sets that hand's visual scale to exactly
`1.0 − 0.5 × g`; the mapping is monotonically decreasing on `[0,1]`, maps
0 to 1.0 and 1 to 0.5 exactly, and its output lies in `[0.5, 1.0]`. -/
theorem pollActions_grab_scale (st : OpenXrProgramState) (sync : SyncResult) (hand : Fin 2)
    (hact : (sync.grabValue.get hand).isActive = true)
    (h0 : 0 ≤ (sync.grabValue.get hand).currentState)
    (h1 : (sync.grabValue.get hand).currentState ≤ 1) :
    (PollActions st sync).state.m_input.handScale.get hand =
        handScaleFormula (sync.grabValue.get hand).currentState
    ∧ (∀ g₁ g₂ : ℚ, 0 ≤ g₁ → g₁ ≤ g₂ → g₂ ≤ 1 →
        handScaleFormula g₂ ≤ handScaleFormula g₁)
    ∧ handScaleFormula 0 = 1
    ∧ handScaleFormula 1 = 1/2
    ∧ 1/2 ≤ handScaleFormula (sync.grabValue.get hand).currentState
    ∧ handScaleFormula (sync.grabValue.get hand).currentState ≤ 1 := by
  refine ⟨?_, ?_, by norm_num [handScaleFormula], by norm_num [handScaleFormula], ?_, ?_⟩
  · rw [pollActions_handScale_get, if_pos hact, handScaleFormula]
  · intro g₁ g₂ _ hle _
    unfold handScaleFormula
    linarith
  · unfold handScaleFormula; linarith
  · unfold handScaleFormula; linarith

/-- Witness for **C5** at a fully squeezed left hand. -/
theorem pollActions_grab_scale_witness :
    (PollActions demoProgramState demoSyncPress).state.m_input.handScale.get Side.LEFT =
        handScaleFormula (demoSyncPress.grabValue.get Side.LEFT).currentState
    ∧ (∀ g₁ g₂ : ℚ, 0 ≤ g₁ → g₁ ≤ g₂ → g₂ ≤ 1 →
        handScaleFormula g₂ ≤ handScaleFormula g₁)
    ∧ handScaleFormula 0 = 1
    ∧ handScaleFormula 1 = 1/2
    ∧ 1/2 ≤ handScaleFormula (demoSyncPress.grabValue.get Side.LEFT).currentState
    ∧ handScaleFormula (demoSyncPress.grabValue.get Side.LEFT).currentState ≤ 1 :=
  pollActions_grab_scale demoProgramState demoSyncPress Side.LEFT (by decide) (by decide)
    (by decide)

/-- **C6**: In every `PollActions` call and for each hand, a haptic pulse
with amplitude 0.5, minimum duration and unspecified frequency is issued
on that hand's vibrate output if and only if the grab action is active
and its value strictly exceeds 0.9. -/
theorem pollActions_haptic_iff (st : OpenXrProgramState) (sync : SyncResult) (hand : Fin 2) :
    (PollActions st sync).haptics.get hand =
      if (sync.grabValue.get hand).isActive = true ∧
          (sync.grabValue.get hand).currentState > 9/10 then
        some { duration := .minHaptic, frequency := 0, amplitude := 1/2 }
      else none := by
  unfold PollActions
  fin_cases hand <;> simp [pollHand_haptic, Side.LEFT, Side.RIGHT, HandPair.get]

/-- **C10**: If a hand's grab action is inactive during a `PollActions`
sync, that hand's visual scale field is left unchanged (the field is
value-initialized to 1.0 for both hands), while the hand-active flag ends
up equal to the pose action's activity for that sync alone. -/
theorem pollActions_inactive_grab_preserves_scale (st : OpenXrProgramState)
    (sync : SyncResult) (hand : Fin 2)
    (h : (sync.grabValue.get hand).isActive = false) :
    (PollActions st sync).state.m_input.handScale.get hand =
        st.m_input.handScale.get hand
    ∧ (PollActions st sync).state.m_input.handActive.get hand =
        (sync.poseState.get hand).isActive
    ∧ ({} : InputState).handScale = ⟨1, 1⟩ := by
  refine ⟨?_, pollActions_handActive_get st sync hand, rfl⟩
  rw [pollActions_handScale_get, if_neg (by simp [h])]

/-- Witness for **C10** at the inactive right hand. -/
theorem pollActions_inactive_grab_preserves_scale_witness :
    (PollActions demoProgramState demoSyncPress).state.m_input.handScale.get Side.RIGHT =
        demoProgramState.m_input.handScale.get Side.RIGHT
    ∧ (PollActions demoProgramState demoSyncPress).state.m_input.handActive.get Side.RIGHT =
        (demoSyncPress.poseState.get Side.RIGHT).isActive
    ∧ ({} : InputState).handScale = ⟨1, 1⟩ :=
  pollActions_inactive_grab_preserves_scale demoProgramState demoSyncPress Side.RIGHT
    (by decide)

/-! ## Claim theorems: session-state handler -/

/-- **C1**: The session-state transition handler is a pure function of
(old state, event); for an event that passes the session guard on an
existing session: `Ready` begins the session with the active
view-configuration type and sets the running flag true; `Stopping` ends
the session and sets running false; `Exiting` sets the exit signal true
and the restart signal false; `LossPending` sets both exit and restart
true; every other state leaves the running flag, exit signal and restart
signal unchanged and issues no session call. -/
theorem handleSessionStateChanged_transition_table (st : OpenXrProgramState)
    (ev : XrEventDataSessionStateChanged) (exitIn restartIn : Bool)
    (hguard : ev.session = XR_NULL_HANDLE ∨ ev.session = st.m_session)
    (hsess : st.m_session ≠ XR_NULL_HANDLE) :
    (HandleSessionStateChangedEvent st ev exitIn restartIn).state.m_sessionState = ev.state
    ∧ (HandleSessionStateChangedEvent st ev exitIn restartIn).fatal = none
    ∧ (ev.state = .Ready →
        (HandleSessionStateChangedEvent st ev exitIn restartIn).state.m_sessionRunning = true
        ∧ (HandleSessionStateChangedEvent st ev exitIn restartIn).calls =
            [.beginSession st.m_viewConfigType]
        ∧ (HandleSessionStateChangedEvent st ev exitIn restartIn).exitRenderLoop = exitIn
        ∧ (HandleSessionStateChangedEvent st ev exitIn restartIn).requestRestart = restartIn)
    ∧ (ev.state = .Stopping →
        (HandleSessionStateChangedEvent st ev exitIn restartIn).state.m_sessionRunning = false
        ∧ (HandleSessionStateChangedEvent st ev exitIn restartIn).calls = [.endSession]
        ∧ (HandleSessionStateChangedEvent st ev exitIn restartIn).exitRenderLoop = exitIn
        ∧ (HandleSessionStateChangedEvent st ev exitIn restartIn).requestRestart = restartIn)
    ∧ (ev.state = .Exiting →
        (HandleSessionStateChangedEvent st ev exitIn restartIn).exitRenderLoop = true
        ∧ (HandleSessionStateChangedEvent st ev exitIn restartIn).requestRestart = false
        ∧ (HandleSessionStateChangedEvent st ev exitIn restartIn).state.m_sessionRunning =
            st.m_sessionRunning
        ∧ (HandleSessionStateChangedEvent st ev exitIn restartIn).calls = [])
    ∧ (ev.state = .LossPending →
        (HandleSessionStateChangedEvent st ev exitIn restartIn).exitRenderLoop = true
        ∧ (HandleSessionStateChangedEvent st ev exitIn restartIn).requestRestart = true
        ∧ (HandleSessionStateChangedEvent st ev exitIn restartIn).state.m_sessionRunning =
            st.m_sessionRunning
        ∧ (HandleSessionStateChangedEvent st ev exitIn restartIn).calls = [])
    ∧ (ev.state ≠ .Ready → ev.state ≠ .Stopping → ev.state ≠ .Exiting →
        ev.state ≠ .LossPending →
        (HandleSessionStateChangedEvent st ev exitIn restartIn).state.m_sessionRunning =
            st.m_sessionRunning
        ∧ (HandleSessionStateChangedEvent st ev exitIn restartIn).exitRenderLoop = exitIn
        ∧ (HandleSessionStateChangedEvent st ev exitIn restartIn).requestRestart = restartIn
        ∧ (HandleSessionStateChangedEvent st ev exitIn restartIn).calls = []) := by
  rcases ev with ⟨evSession, evState, evTime⟩
  rcases hguard with h | h <;> subst h <;> cases evState <;>
    simp_all [HandleSessionStateChangedEvent]

/-- Witness for **C1**: delivering `Ready` to an owned session. -/
theorem handleSessionStateChanged_transition_table_witness :
    (HandleSessionStateChangedEvent demoProgramState ⟨2, .Ready, 5⟩ false false).state.m_sessionState
        = XrSessionState.Ready
    ∧ (HandleSessionStateChangedEvent demoProgramState ⟨2, .Ready, 5⟩ false false).fatal = none
    ∧ (XrSessionState.Ready = .Ready →
        (HandleSessionStateChangedEvent demoProgramState ⟨2, .Ready, 5⟩ false false).state.m_sessionRunning = true
        ∧ (HandleSessionStateChangedEvent demoProgramState ⟨2, .Ready, 5⟩ false false).calls =
            [.beginSession demoProgramState.m_viewConfigType]
        ∧ (HandleSessionStateChangedEvent demoProgramState ⟨2, .Ready, 5⟩ false false).exitRenderLoop = false
        ∧ (HandleSessionStateChangedEvent demoProgramState ⟨2, .Ready, 5⟩ false false).requestRestart = false)
    ∧ (XrSessionState.Ready = .Stopping →
        (HandleSessionStateChangedEvent demoProgramState ⟨2, .Ready, 5⟩ false false).state.m_sessionRunning = false
        ∧ (HandleSessionStateChangedEvent demoProgramState ⟨2, .Ready, 5⟩ false false).calls = [.endSession]
        ∧ (HandleSessionStateChangedEvent demoProgramState ⟨2, .Ready, 5⟩ false false).exitRenderLoop = false
        ∧ (HandleSessionStateChangedEvent demoProgramState ⟨2, .Ready, 5⟩ false false).requestRestart = false)
    ∧ (XrSessionState.Ready = .Exiting →
        (HandleSessionStateChangedEvent demoProgramState ⟨2, .Ready, 5⟩ false false).exitRenderLoop = true
        ∧ (HandleSessionStateChangedEvent demoProgramState ⟨2, .Ready, 5⟩ false false).requestRestart = false
        ∧ (HandleSessionStateChangedEvent demoProgramState ⟨2, .Ready, 5⟩ false false).state.m_sessionRunning =
            demoProgramState.m_sessionRunning
        ∧ (HandleSessionStateChangedEvent demoProgramState ⟨2, .Ready, 5⟩ false false).calls = [])
    ∧ (XrSessionState.Ready = .LossPending →
        (HandleSessionStateChangedEvent demoProgramState ⟨2, .Ready, 5⟩ false false).exitRenderLoop = true
        ∧ (HandleSessionStateChangedEvent demoProgramState ⟨2, .Ready, 5⟩ false false).requestRestart = true
        ∧ (HandleSessionStateChangedEvent demoProgramState ⟨2, .Ready, 5⟩ false false).state.m_sessionRunning =
            demoProgramState.m_sessionRunning
        ∧ (HandleSessionStateChangedEvent demoProgramState ⟨2, .Ready, 5⟩ false false).calls = [])
    ∧ (XrSessionState.Ready ≠ .Ready → XrSessionState.Ready ≠ .Stopping →
        XrSessionState.Ready ≠ .Exiting → XrSessionState.Ready ≠ .LossPending →
        (HandleSessionStateChangedEvent demoProgramState ⟨2, .Ready, 5⟩ false false).state.m_sessionRunning =
            demoProgramState.m_sessionRunning
        ∧ (HandleSessionStateChangedEvent demoProgramState ⟨2, .Ready, 5⟩ false false).exitRenderLoop = false
        ∧ (HandleSessionStateChangedEvent demoProgramState ⟨2, .Ready, 5⟩ false false).requestRestart = false
        ∧ (HandleSessionStateChangedEvent demoProgramState ⟨2, .Ready, 5⟩ false false).calls = []) :=
  handleSessionStateChanged_transition_table demoProgramState ⟨2, .Ready, 5⟩ false false
    (Or.inr (by decide)) (by decide)

/-- Counterexample for **C2**: an event naming an unknown non-null session
handle is discarded, yet the stored session state is mutated to the
event's state before the guard check (here `Focused` → `Stopping`). -/
theorem handleSessionStateChanged_unknown_session_mutates_state :
    (HandleSessionStateChangedEvent demoProgramState ⟨9, .Stopping, 5⟩ false false).state.m_sessionState
        = XrSessionState.Stopping
    ∧ demoProgramState.m_sessionState = XrSessionState.Focused
    ∧ (HandleSessionStateChangedEvent demoProgramState ⟨9, .Stopping, 5⟩ false false).logs =
        [(LogLevel.Info, "XrEventDataSessionStateChanged"),
         (LogLevel.Error, "XrEventDataSessionStateChanged for unknown session")]
    ∧ (HandleSessionStateChangedEvent demoProgramState ⟨9, .Stopping, 5⟩ false false).state.m_sessionState
        ≠ demoProgramState.m_sessionState := by
  decide

/-- **C2 (amended)**: For every session-state-changed event whose session
handle is non-null and differs from the owned session handle, the handler
logs an error and discards the event without touching the running flag,
the exit/restart signals, or issuing any session call — but the stored
session state has already been overwritten with the event's state before
the guard runs. -/
theorem handleSessionStateChanged_unknown_session_guard (st : OpenXrProgramState)
    (ev : XrEventDataSessionStateChanged) (exitIn restartIn : Bool)
    (h0 : ev.session ≠ XR_NULL_HANDLE) (h1 : ev.session ≠ st.m_session) :
    HandleSessionStateChangedEvent st ev exitIn restartIn =
      { state := { st with m_sessionState := ev.state },
        exitRenderLoop := exitIn, requestRestart := restartIn,
        calls := [],
        logs := [(LogLevel.Info, "XrEventDataSessionStateChanged"),
                 (LogLevel.Error, "XrEventDataSessionStateChanged for unknown session")],
        fatal := none } := by
  unfold HandleSessionStateChangedEvent
  simp [h0, h1]

/-- Witness for **C2 (amended)**. -/
theorem handleSessionStateChanged_unknown_session_guard_witness :
    HandleSessionStateChangedEvent demoProgramState ⟨9, .Stopping, 5⟩ false false =
      { state := { demoProgramState with m_sessionState := XrSessionState.Stopping },
        exitRenderLoop := false, requestRestart := false,
        calls := [],
        logs := [(LogLevel.Info, "XrEventDataSessionStateChanged"),
                 (LogLevel.Error, "XrEventDataSessionStateChanged for unknown session")],
        fatal := none } :=
  handleSessionStateChanged_unknown_session_guard demoProgramState ⟨9, .Stopping, 5⟩
    false false (by decide) (by decide)

/-! ## Claim theorems: configuration parsing and startup -/

/-- `GetXrFormFactor` succeeds exactly on the recognized strings. -/
theorem getXrFormFactor_recognized (s : String) :
    exOk (GetXrFormFactor s) = recognizedFormFactor s := by
  unfold GetXrFormFactor recognizedFormFactor
  split_ifs with h1 h2 <;> simp_all [exOk]

/-- `GetXrViewConfigurationType` succeeds exactly on the recognized strings. -/
theorem getXrViewConfigurationType_recognized (s : String) :
    exOk (GetXrViewConfigurationType s) = recognizedViewConfiguration s := by
  unfold GetXrViewConfigurationType recognizedViewConfiguration
  split_ifs with h1 h2 <;> simp_all [exOk]

/-- `GetXrEnvironmentBlendMode` succeeds exactly on the recognized strings. -/
theorem getXrEnvironmentBlendMode_recognized (s : String) :
    exOk (GetXrEnvironmentBlendMode s) = recognizedEnvironmentBlendMode s := by
  unfold GetXrEnvironmentBlendMode recognizedEnvironmentBlendMode
  split_ifs with h1 h2 h3 <;> simp_all [exOk]

/-- `GetXrReferenceSpaceCreateInfo` succeeds exactly on the 8 recognized
identifiers. -/
theorem getXrReferenceSpaceCreateInfo_recognized (s : String) :
    exOk (GetXrReferenceSpaceCreateInfo s) = recognizedReferenceSpace s := by
  unfold GetXrReferenceSpaceCreateInfo recognizedReferenceSpace
  split_ifs with h1 h2 h3 h4 h5 h6 h7 h8 <;> simp_all [exOk]

/-- `InitializeSystem` never touches any handle-state field other than
`m_systemId`, and `m_systemId` only after all three parses succeed. -/
theorem initializeSystem_handle_state (opts : Options) (o : RuntimeOracle)
    (st : OpenXrProgramState) :
    (InitializeSystem opts o st).1.m_instance = st.m_instance
    ∧ (InitializeSystem opts o st).1.m_session = st.m_session
    ∧ (InitializeSystem opts o st).1.m_appSpace = st.m_appSpace
    ∧ (InitializeSystem opts o st).1.m_visualizedSpaces = st.m_visualizedSpaces
    ∧ (InitializeSystem opts o st).1.m_swapchains = st.m_swapchains := by
  unfold InitializeSystem
  repeat' split <;> (try simp_all)

/-- `InitializeSystem` fails whenever one of the three configuration
strings is unrecognized, and on those paths the throw happens before the
`m_systemId` assignment, so the system id is also left unchanged. -/
theorem initializeSystem_fails_on_unrecognized (opts : Options) (o : RuntimeOracle)
    (st : OpenXrProgramState)
    (h : recognizedFormFactor opts.FormFactor = false ∨
         recognizedViewConfiguration opts.ViewConfiguration = false ∨
         recognizedEnvironmentBlendMode opts.EnvironmentBlendMode = false) :
    (InitializeSystem opts o st).2.isSome = true
    ∧ (InitializeSystem opts o st).1.m_systemId = st.m_systemId := by
  unfold InitializeSystem
  repeat' split <;>
    (try simp_all [← getXrFormFactor_recognized, ← getXrViewConfigurationType_recognized,
      ← getXrEnvironmentBlendMode_recognized, exOk])

/-- The `CreateVisualizedSpaces` loop over identifiers whose create-info
parse succeeds: every identifier is attempted in order, failures are
logged and skipped, successes are retained. -/
theorem createVisualizedSpacesLoop_spec (o : RuntimeOracle) :
    ∀ names : List String,
      (∀ n ∈ names, exOk (GetXrReferenceSpaceCreateInfo n) = true) →
      ∃ t : SpaceCreationTrace,
        createVisualizedSpacesLoop o names = .ok t
        ∧ t.attempts.map Prod.fst = names
        ∧ t.retained.length = (t.attempts.filter (fun a => exOk a.2)).length
        ∧ t.logs.length = (t.attempts.filter (fun a => !exOk a.2)).length := by
  intro names
  induction names with
  | nil => exact fun _ => ⟨⟨[], [], []⟩, rfl, rfl, rfl, rfl⟩
  | cons name rest ih =>
    intro h
    have hn := h name (by simp)
    obtain ⟨t, ht, hmap, hret, hlog⟩ := ih (fun n hm => h n (by simp [hm]))
    cases hinfo : GetXrReferenceSpaceCreateInfo name with
    | error e => rw [hinfo] at hn; simp [exOk] at hn
    | ok info =>
      cases hres : o.createReferenceSpace info with
      | ok space =>
        refine ⟨⟨(name, .ok space) :: t.attempts, space :: t.retained, t.logs⟩, ?_, ?_, ?_, ?_⟩
        · simp [createVisualizedSpacesLoop, hinfo, ht, hres]
        · simp [hmap]
        · simp [List.filter_cons, exOk, hret]
        · simp [List.filter_cons, exOk, hlog]
      | error code =>
        refine ⟨⟨(name, .error code) :: t.attempts, t.retained,
                 (LogLevel.Warning, "Failed to create reference space " ++ name) :: t.logs⟩,
                ?_, ?_, ?_, ?_⟩
        · simp [createVisualizedSpacesLoop, hinfo, ht, hres]
        · simp [hmap]
        · simp [List.filter_cons, exOk, hret]
        · simp [List.filter_cons, exOk, hlog]

/-- **C8**: `CreateVisualizedSpaces` attempts all 7 named identifiers in
order for every pattern of per-call outcomes: no failure aborts the loop,
each failure is logged, and the retained visualized-space set grows by
exactly the number of successful creations. -/
theorem createVisualizedSpaces_attempts_all (o : RuntimeOracle) (st : OpenXrProgramState)
    (h : st.m_session ≠ XR_NULL_HANDLE) :
    ∃ t : SpaceCreationTrace,
      CreateVisualizedSpaces o st =
        ({ st with m_visualizedSpaces := st.m_visualizedSpaces ++ t.retained }, t, none)
      ∧ t.attempts.map Prod.fst = visualizedSpaceNames
      ∧ t.attempts.length = 7
      ∧ t.retained.length = (t.attempts.filter (fun a => exOk a.2)).length
      ∧ t.logs.length = (t.attempts.filter (fun a => !exOk a.2)).length := by
  have hall : ∀ n ∈ visualizedSpaceNames, exOk (GetXrReferenceSpaceCreateInfo n) = true := by
    decide
  obtain ⟨t, ht, hmap, hret, hlog⟩ := createVisualizedSpacesLoop_spec o visualizedSpaceNames hall
  refine ⟨t, ?_, hmap, ?_, hret, hlog⟩
  · unfold CreateVisualizedSpaces
    rw [if_neg h, ht]
  · have hlen := congrArg List.length hmap
    simpa [visualizedSpaceNames] using hlen

/-- Witness for **C8** on an oracle that fails exactly the `Local` space
creation. -/
theorem createVisualizedSpaces_attempts_all_witness :
    ∃ t : SpaceCreationTrace,
      CreateVisualizedSpaces demoRuntimeOracle demoProgramState =
        ({ demoProgramState with
            m_visualizedSpaces := demoProgramState.m_visualizedSpaces ++ t.retained }, t, none)
      ∧ t.attempts.map Prod.fst = visualizedSpaceNames
      ∧ t.attempts.length = 7
      ∧ t.retained.length = (t.attempts.filter (fun a => exOk a.2)).length
      ∧ t.logs.length = (t.attempts.filter (fun a => !exOk a.2)).length :=
  createVisualizedSpaces_attempts_all demoRuntimeOracle demoProgramState (by decide)

/-- Counterexample for **C3**: with an unrecognized app-space string,
initialization does fail with a configuration error, but only after
`InitializeSession` has already created the session and the visualized
spaces — handle state IS mutated by the failing call. -/
theorem initializeSession_bad_appSpace_mutates_handles :
    (InitializeSession demoBadAppSpaceOptions demoRuntimeOracle demoFreshState).2.isSome = true
    ∧ demoFreshState.m_session = XR_NULL_HANDLE
    ∧ (InitializeSession demoBadAppSpaceOptions demoRuntimeOracle demoFreshState).1.m_session = 2
    ∧ demoFreshState.m_visualizedSpaces = []
    ∧ (InitializeSession demoBadAppSpaceOptions demoRuntimeOracle demoFreshState).1.m_visualizedSpaces
        ≠ [] := by
  decide

/-- **C3 (amended)**: Every configuration string outside the recognized
enumerations makes initialization fail with a configuration error.  For
the form factor, view configuration and blend mode the failing
`InitializeSystem` call leaves all handle state unchanged; the
reference-space parse itself succeeds exactly on the 8 recognized
identifiers and mutates nothing, but when the configured app-space string
is unrecognized, `InitializeSession` fails only after the session (and
the visualized spaces) have already been created. -/
theorem initialize_config_error_behavior :
    (∀ (opts : Options) (o : RuntimeOracle) (st : OpenXrProgramState),
      (recognizedFormFactor opts.FormFactor = false ∨
       recognizedViewConfiguration opts.ViewConfiguration = false ∨
       recognizedEnvironmentBlendMode opts.EnvironmentBlendMode = false) →
      (InitializeSystem opts o st).2.isSome = true
      ∧ (InitializeSystem opts o st).1.m_instance = st.m_instance
      ∧ (InitializeSystem opts o st).1.m_systemId = st.m_systemId
      ∧ (InitializeSystem opts o st).1.m_session = st.m_session
      ∧ (InitializeSystem opts o st).1.m_appSpace = st.m_appSpace
      ∧ (InitializeSystem opts o st).1.m_visualizedSpaces = st.m_visualizedSpaces
      ∧ (InitializeSystem opts o st).1.m_swapchains = st.m_swapchains)
    ∧ (∀ s : String, exOk (GetXrReferenceSpaceCreateInfo s) = recognizedReferenceSpace s)
    ∧ (∀ (opts : Options) (o : RuntimeOracle) (st : OpenXrProgramState),
        recognizedReferenceSpace opts.AppSpace = false →
        st.m_instance ≠ XR_NULL_HANDLE → st.m_session = XR_NULL_HANDLE →
        (InitializeSession opts o st).2.isSome = true
        ∧ (InitializeSession opts o st).1.m_session = o.createSessionHandle) := by
  refine ⟨?_, getXrReferenceSpaceCreateInfo_recognized, ?_⟩
  · intro opts o st h
    have h1 := initializeSystem_fails_on_unrecognized opts o st h
    have h2 := initializeSystem_handle_state opts o st
    exact ⟨h1.1, h2.1, h1.2, h2.2.1, h2.2.2.1, h2.2.2.2.1, h2.2.2.2.2⟩
  · intro opts o st h hi hs
    obtain ⟨t, ht, -, -, -⟩ :=
      createVisualizedSpacesLoop_spec o visualizedSpaceNames (by decide)
    have happ : ∃ e, GetXrReferenceSpaceCreateInfo opts.AppSpace = .error e := by
      have hx := getXrReferenceSpaceCreateInfo_recognized opts.AppSpace
      rw [h] at hx
      cases hy : GetXrReferenceSpaceCreateInfo opts.AppSpace with
      | ok v => rw [hy] at hx; simp [exOk] at hx
      | error e => exact ⟨e, rfl⟩
    obtain ⟨e, he⟩ := happ
    unfold InitializeSession CreateVisualizedSpaces
    rw [if_neg hi, if_neg (by simp [hs])]
    by_cases hcs : o.createSessionHandle = XR_NULL_HANDLE
    · simp [InitializeActions, hcs]
    · simp [InitializeActions, hcs, ht, he]

/-- Witness for **C3 (amended)**. -/
theorem initialize_config_error_behavior_witness :
    ((InitializeSystem ⟨"Tablet", "Stereo", "Opaque", "Local"⟩ demoRuntimeOracle demoFreshState).2.isSome = true
      ∧ (InitializeSystem ⟨"Tablet", "Stereo", "Opaque", "Local"⟩ demoRuntimeOracle demoFreshState).1.m_instance = demoFreshState.m_instance
      ∧ (InitializeSystem ⟨"Tablet", "Stereo", "Opaque", "Local"⟩ demoRuntimeOracle demoFreshState).1.m_systemId = demoFreshState.m_systemId
      ∧ (InitializeSystem ⟨"Tablet", "Stereo", "Opaque", "Local"⟩ demoRuntimeOracle demoFreshState).1.m_session = demoFreshState.m_session
      ∧ (InitializeSystem ⟨"Tablet", "Stereo", "Opaque", "Local"⟩ demoRuntimeOracle demoFreshState).1.m_appSpace = demoFreshState.m_appSpace
      ∧ (InitializeSystem ⟨"Tablet", "Stereo", "Opaque", "Local"⟩ demoRuntimeOracle demoFreshState).1.m_visualizedSpaces = demoFreshState.m_visualizedSpaces
      ∧ (InitializeSystem ⟨"Tablet", "Stereo", "Opaque", "Local"⟩ demoRuntimeOracle demoFreshState).1.m_swapchains = demoFreshState.m_swapchains)
    ∧ ((InitializeSession demoBadAppSpaceOptions demoRuntimeOracle demoFreshState).2.isSome = true
      ∧ (InitializeSession demoBadAppSpaceOptions demoRuntimeOracle demoFreshState).1.m_session
          = demoRuntimeOracle.createSessionHandle) :=
  ⟨initialize_config_error_behavior.1 ⟨"Tablet", "Stereo", "Opaque", "Local"⟩
      demoRuntimeOracle demoFreshState (Or.inl (by decide)),
   initialize_config_error_behavior.2.2 demoBadAppSpaceOptions demoRuntimeOracle
      demoFreshState (by decide) (by decide) (by decide)⟩

/-! ## Claim theorems: frame rendering -/

/-- **C7**: In every frame where the view-locate query reports the
position-valid or orientation-valid flag unset, `RenderFrame` acquires no
swapchain image, issues no backend render call and no release, yet still
calls end-frame with the original predicted display time, the configured
environment blend mode, and zero composition layers. -/
theorem renderFrame_invalid_tracking_skips_rendering (st : OpenXrProgramState)
    (o : RenderOracle)
    (hs : st.m_session ≠ XR_NULL_HANDLE)
    (hw : 0 ≤ o.waitFrameResult) (hb : 0 ≤ o.beginFrameResult)
    (hr : o.frameState.shouldRender = true)
    (hl : 0 ≤ o.locateViewsResult)
    (hv : o.positionValid = false ∨ o.orientationValid = false) :
    (RenderFrame st o).trace.acquireCalls = []
    ∧ (RenderFrame st o).trace.renderCalls = []
    ∧ (RenderFrame st o).trace.releaseCalls = []
    ∧ (RenderFrame st o).endFrame =
        some (o.frameState.predictedDisplayTime, st.m_environmentBlendMode, 0) := by
  have h2 : ¬ o.waitFrameResult < 0 := by omega
  have h3 : ¬ o.beginFrameResult < 0 := by omega
  have h4 : ¬ o.locateViewsResult < 0 := by omega
  unfold RenderFrame RenderLayer
  simp [hs, h2, h3, h4, hr, hv]

/-- Witness for **C7** on a frame whose orientation-valid flag is unset. -/
theorem renderFrame_invalid_tracking_skips_rendering_witness :
    (RenderFrame demoProgramState demoRenderOracleInvalid).trace.acquireCalls = []
    ∧ (RenderFrame demoProgramState demoRenderOracleInvalid).trace.renderCalls = []
    ∧ (RenderFrame demoProgramState demoRenderOracleInvalid).trace.releaseCalls = []
    ∧ (RenderFrame demoProgramState demoRenderOracleInvalid).endFrame =
        some (demoRenderOracleInvalid.frameState.predictedDisplayTime,
              demoProgramState.m_environmentBlendMode, 0) :=
  renderFrame_invalid_tracking_skips_rendering demoProgramState demoRenderOracleInvalid
    (by decide) (by decide) (by decide) (by decide) (by decide) (Or.inr (by decide))

/-- The per-view loop on a list of views whose acquire and wait calls all
succeed: all three call lists equal the input list and nothing throws. -/
theorem renderViewLoop_all_ok (o : RenderOracle) :
    ∀ l : List Nat,
      (∀ i ∈ l, exOk (o.acquireImage i) = true ∧ exOk (o.waitImage i) = true) →
      RenderViewLoop o l = ⟨l, l, l, none⟩ := by
  intro l
  induction l with
  | nil => exact fun _ => rfl
  | cons i rest ih =>
    intro h
    obtain ⟨ha, hwt⟩ := h i (by simp)
    cases hacq : o.acquireImage i with
    | error e => rw [hacq] at ha; simp [exOk] at ha
    | ok v =>
      cases hwi : o.waitImage i with
      | error e => rw [hwi] at hwt; simp [exOk] at hwt
      | ok u =>
        simp [RenderViewLoop, hacq, hwi, ih (fun j hj => h j (by simp [hj]))]

/-- The per-view loop when the first acquire failure happens at view `k`:
the views before `k` complete their acquire/render/release cycle, `k`'s
acquire is called and throws, and no release is issued for `k` or any
later view. -/
theorem renderViewLoop_acquire_fail (o : RenderOracle) :
    ∀ (l₁ : List Nat) (k : Nat) (l₂ : List Nat),
      (∀ i ∈ l₁, exOk (o.acquireImage i) = true ∧ exOk (o.waitImage i) = true) →
      exOk (o.acquireImage k) = false →
      RenderViewLoop o (l₁ ++ k :: l₂) =
        ⟨l₁ ++ [k], l₁, l₁, some "xrAcquireSwapchainImage failed"⟩ := by
  intro l₁
  induction l₁ with
  | nil =>
    intro k l₂ _ hk
    cases hacq : o.acquireImage k with
    | error e => simp [RenderViewLoop, hacq]
    | ok v => rw [hacq] at hk; simp [exOk] at hk
  | cons i rest ih =>
    intro k l₂ h hk
    obtain ⟨ha, hwt⟩ := h i (by simp)
    cases hacq : o.acquireImage i with
    | error e => rw [hacq] at ha; simp [exOk] at ha
    | ok v =>
      cases hwi : o.waitImage i with
      | error e => rw [hwi] at hwt; simp [exOk] at hwt
      | ok u =>
        simp [RenderViewLoop, hacq, hwi,
          ih k l₂ (fun j hj => h j (by simp [hj])) hk]

/-- With no hard `xrLocateSpace` failure, collecting the visualized-space
cubes never throws. -/
theorem collectSpaceCubes_ok (o : RenderOracle) (time : Int)
    (hl : ∀ s t, 0 ≤ (o.locateSpace s t).1) :
    ∀ spaces : List Nat, ∃ cs, collectSpaceCubes o time spaces = .ok cs := by
  intro spaces
  induction spaces with
  | nil => exact ⟨[], rfl⟩
  | cons s rest ih =>
    obtain ⟨cs, hcs⟩ := ih
    have h0 : ¬ (o.locateSpace s time).1 < 0 := by have := hl s time; omega
    by_cases hc : (o.locateSpace s time).1 = 0 ∧ (o.locateSpace s time).2.positionValid
        ∧ (o.locateSpace s time).2.orientationValid
    · refine ⟨{ pose := (o.locateSpace s time).2.pose, scale := ⟨1/4, 1/4, 1/4⟩ } :: cs, ?_⟩
      rw [collectSpaceCubes]
      simp [h0, hcs, hc]
    · refine ⟨cs, ?_⟩
      rw [collectSpaceCubes]
      simp [h0, hcs, hc]

/-- With no hard `xrLocateSpace` failure, collecting a hand cube never
throws. -/
theorem handCube_ok (o : RenderOracle) (st : OpenXrProgramState) (time : Int)
    (hand : Fin 2) (hl : ∀ s t, 0 ≤ (o.locateSpace s t).1) :
    ∃ cs, handCube o st time hand = .ok cs := by
  unfold handCube
  have h0 : ¬ (o.locateSpace (st.m_input.handSpace.get hand) time).1 < 0 := by
    have := hl (st.m_input.handSpace.get hand) time; omega
  by_cases hc : (o.locateSpace (st.m_input.handSpace.get hand) time).1 = 0
      ∧ (o.locateSpace (st.m_input.handSpace.get hand) time).2.positionValid
      ∧ (o.locateSpace (st.m_input.handSpace.get hand) time).2.orientationValid
  · refine ⟨[{ pose := (o.locateSpace (st.m_input.handSpace.get hand) time).2.pose,
               scale := ⟨1/10 * st.m_input.handScale.get hand,
                         1/10 * st.m_input.handScale.get hand,
                         1/10 * st.m_input.handScale.get hand⟩ }], ?_⟩
    simp [h0, hc]
  · refine ⟨[], ?_⟩
    simp [h0, hc]

/-- Under the frame preconditions, the trace of a rendered frame is the
trace of the per-view loop over the `N` view indices. -/
theorem renderFrame_trace_eq_loop (st : OpenXrProgramState) (o : RenderOracle) (N : Nat)
    (hs : st.m_session ≠ XR_NULL_HANDLE)
    (hw : 0 ≤ o.waitFrameResult) (hb : 0 ≤ o.beginFrameResult)
    (hr : o.frameState.shouldRender = true)
    (hl : 0 ≤ o.locateViewsResult)
    (hp : o.positionValid = true) (hq : o.orientationValid = true)
    (hc1 : o.viewCountOutput = N) (hc2 : st.m_viewCount = N)
    (hc3 : st.m_configViewCount = N) (hc4 : st.m_swapchains.length = N)
    (hloc : ∀ s t, 0 ≤ (o.locateSpace s t).1) :
    (RenderFrame st o).trace = RenderViewLoop o (List.range N) := by
  have h2 : ¬ o.waitFrameResult < 0 := by omega
  have h3 : ¬ o.beginFrameResult < 0 := by omega
  have h4 : ¬ o.locateViewsResult < 0 := by omega
  obtain ⟨cs, hcs⟩ := collectSpaceCubes_ok o o.frameState.predictedDisplayTime hloc
    st.m_visualizedSpaces
  obtain ⟨cL, hcL⟩ := handCube_ok o st o.frameState.predictedDisplayTime Side.LEFT hloc
  obtain ⟨cR, hcR⟩ := handCube_ok o st o.frameState.predictedDisplayTime Side.RIGHT hloc
  unfold RenderFrame RenderLayer
  simp [hs, h2, h3, h4, hr, hp, hq, hc1, hc2, hc3, hc4, hcs, hcL, hcR]
  cases hfat : (RenderViewLoop o (List.range N)).fatal <;> simp [hfat]

/-- **C9**: In every frame with `N` views that proceeds to per-view
rendering, exactly `N` swapchain acquire calls and exactly `N` release
calls are issued, strictly paired per view (the render call into each
image also happens exactly once per view, and a logical render failure
does not skip the release); this holds for every pattern of
space-pose-location outcomes.  If instead the acquire for view `k` fails,
the views before `k` are still acquired and released, `k`'s acquire is
the last call, and no release is issued for `k`. -/
theorem renderLayer_acquire_release_pairing (st : OpenXrProgramState) (o : RenderOracle)
    (N : Nat)
    (hs : st.m_session ≠ XR_NULL_HANDLE)
    (hw : 0 ≤ o.waitFrameResult) (hb : 0 ≤ o.beginFrameResult)
    (hr : o.frameState.shouldRender = true)
    (hl : 0 ≤ o.locateViewsResult)
    (hp : o.positionValid = true) (hq : o.orientationValid = true)
    (hc1 : o.viewCountOutput = N) (hc2 : st.m_viewCount = N)
    (hc3 : st.m_configViewCount = N) (hc4 : st.m_swapchains.length = N)
    (hloc : ∀ s t, 0 ≤ (o.locateSpace s t).1) :
    ((∀ i, i < N → exOk (o.acquireImage i) = true ∧ exOk (o.waitImage i) = true) →
      (RenderFrame st o).trace.acquireCalls = List.range N
      ∧ (RenderFrame st o).trace.renderCalls = List.range N
      ∧ (RenderFrame st o).trace.releaseCalls = List.range N)
    ∧ (∀ (l₁ : List Nat) (k : Nat) (l₂ : List Nat),
        List.range N = l₁ ++ k :: l₂ →
        (∀ i ∈ l₁, exOk (o.acquireImage i) = true ∧ exOk (o.waitImage i) = true) →
        exOk (o.acquireImage k) = false →
        (RenderFrame st o).trace.acquireCalls = l₁ ++ [k]
        ∧ (RenderFrame st o).trace.releaseCalls = l₁
        ∧ k ∉ (RenderFrame st o).trace.releaseCalls) := by
  have key := renderFrame_trace_eq_loop st o N hs hw hb hr hl hp hq hc1 hc2 hc3 hc4 hloc
  constructor
  · intro hall
    have hloop := renderViewLoop_all_ok o (List.range N)
      (fun i hi => hall i (List.mem_range.mp hi))
    rw [key, hloop]
    exact ⟨rfl, rfl, rfl⟩
  · intro l₁ k l₂ hsplit h₁ hk
    have hloop := renderViewLoop_acquire_fail o l₁ k l₂ h₁ hk
    have htr : (RenderFrame st o).trace =
        ⟨l₁ ++ [k], l₁, l₁, some "xrAcquireSwapchainImage failed"⟩ := by
      rw [key, hsplit, hloop]
    have hnodup : (l₁ ++ k :: l₂).Nodup := by
      rw [← hsplit]; exact List.nodup_range N
    have hkl : k ∉ l₁ := by
      rcases List.nodup_append.mp hnodup with ⟨-, -, hdisj⟩
      intro hmem
      exact hdisj hmem (List.mem_cons_self k l₂)
    rw [htr]
    exact ⟨rfl, rfl, hkl⟩

/-- Witness for **C9**: a 2-view frame on an oracle whose second view's
acquire fails, with one visualized space reporting a qualified
pose-location failure. -/
theorem renderLayer_acquire_release_pairing_witness :
    ((∀ i, i < 2 → exOk (demoRenderOracleAcquireFail.acquireImage i) = true
        ∧ exOk (demoRenderOracleAcquireFail.waitImage i) = true) →
      (RenderFrame demoProgramState demoRenderOracleAcquireFail).trace.acquireCalls = List.range 2
      ∧ (RenderFrame demoProgramState demoRenderOracleAcquireFail).trace.renderCalls = List.range 2
      ∧ (RenderFrame demoProgramState demoRenderOracleAcquireFail).trace.releaseCalls = List.range 2)
    ∧ (∀ (l₁ : List Nat) (k : Nat) (l₂ : List Nat),
        List.range 2 = l₁ ++ k :: l₂ →
        (∀ i ∈ l₁, exOk (demoRenderOracleAcquireFail.acquireImage i) = true
          ∧ exOk (demoRenderOracleAcquireFail.waitImage i) = true) →
        exOk (demoRenderOracleAcquireFail.acquireImage k) = false →
        (RenderFrame demoProgramState demoRenderOracleAcquireFail).trace.acquireCalls = l₁ ++ [k]
        ∧ (RenderFrame demoProgramState demoRenderOracleAcquireFail).trace.releaseCalls = l₁
        ∧ k ∉ (RenderFrame demoProgramState demoRenderOracleAcquireFail).trace.releaseCalls) :=
  renderLayer_acquire_release_pairing demoProgramState demoRenderOracleAcquireFail 2
    (by decide) (by decide) (by decide) (by decide) (by decide) (by decide) (by decide)
    (by decide) (by decide) (by decide) (by decide)
    (fun s t => by unfold demoRenderOracleAcquireFail; dsimp only; split <;> decide)

end HelloXr
